import Mathlib

/-!
Verification of the unoRadar backend server lifecycle manager
(src/backend/src/websocket/server_lifecycle_manager.cpp) and of the
process entry point (src/backend/src/main.cpp).

The lifecycle manager coordinates three components (connection acceptor,
message broadcaster, statistics collector) plus the session manager.  The
components themselves live behind interfaces; here each component call is
an abstract behaviour: a bool-returning call can return true, return
false, or throw, and a void stop call can return or throw.  The lifecycle
functions are translated line by line from the C++ source into total Lean
functions that also emit an event trace recording, in program order, every
component call, callback registration, flag store and relevant log line.
Component handles are non-null for the whole lifetime of the manager (they
are reference members bound at construction by the master controller), so
the null-pointer guards in the source are identically true and are not
modelled as branches.
-/

namespace Siren

/-- Components coordinated by the lifecycle manager. -/
inductive Component
  | acceptor
  | broadcaster
  | collector
  deriving DecidableEq, Repr, Fintype

/-- Callback registration points wired during initialization. -/
inductive CallbackKind
  | onAccept
  | onError
  | onSession
  | onBroadcast
  deriving DecidableEq, Repr, Fintype

/-- Observable events emitted by the lifecycle manager, in program order. -/
inductive Event
  | initCall (c : Component)
  | startCall (c : Component)
  | stopCall (c : Component)
  | closeAllSessions
  | setCallback (k : CallbackKind)
  | storeRunning (v : Bool)
  | storeShutdownRequested (v : Bool)
  | rolledBackLog (c : Component)
  | rollbackCompletedLog
  | rollbackCriticalLog
  | alreadyRunningWarn
  deriving DecidableEq, Repr

/-- Outcome of a bool-returning component call: returns true, returns
false, or throws an exception. -/
inductive Outcome
  | ok
  | fail
  | exn
  deriving DecidableEq, Repr, Fintype

/-- Outcome of a void component stop call: returns normally or throws. -/
inductive StopOutcome
  | ok
  | exn
  deriving DecidableEq, Repr, Fintype

/-- Behaviour of the three component stop calls as seen by the rollback
path. -/
structure StopBeh where
  acceptor : StopOutcome
  broadcaster : StopOutcome
  collector : StopOutcome
  deriving DecidableEq, Repr, Fintype

/-- Behaviour of one start attempt: the outcome of each component start
call, plus the stop behaviours used if rollback runs. -/
structure StartBeh where
  acceptor : Outcome
  broadcaster : Outcome
  collector : Outcome
  rollback : StopBeh
  deriving DecidableEq, Repr, Fintype

/-- Behaviour of one initialization attempt. -/
structure InitBeh where
  acceptor : Outcome
  broadcaster : Outcome
  collector : Outcome
  deriving DecidableEq, Repr, Fintype

namespace ServerLifecycleManager

/-- Try block of rollbackStartedComponents: stop the started components in
reverse start order (collector, broadcaster, acceptor), logging each one
stopped, then log completion.  Returns the events emitted and whether an
exception reached the catch handler (a throwing stop aborts the rest of
the block). -/
def rollbackTryBody (aS bS cS : Bool) (beh : StopBeh) : List Event × Bool :=
  let s1 : List Event × Bool :=
    if cS then
      match beh.collector with
      | .exn => ([.stopCall .collector], true)
      | .ok => ([.stopCall .collector, .rolledBackLog .collector], false)
    else ([], false)
  if s1.2 then s1 else
  let s2 : List Event × Bool :=
    if bS then
      match beh.broadcaster with
      | .exn => (s1.1 ++ [.stopCall .broadcaster], true)
      | .ok => (s1.1 ++ [.stopCall .broadcaster, .rolledBackLog .broadcaster], false)
    else s1
  if s2.2 then s2 else
  let s3 : List Event × Bool :=
    if aS then
      match beh.acceptor with
      | .exn => (s2.1 ++ [.stopCall .acceptor], true)
      | .ok => (s2.1 ++ [.stopCall .acceptor, .rolledBackLog .acceptor], false)
    else s2
  if s3.2 then s3 else (s3.1 ++ [.rollbackCompletedLog], false)

/-- ServerLifecycleManager::rollbackStartedComponents (noexcept): runs the
try block; the catch-all handler logs a critical error and returns
normally. -/
def rollbackStartedComponents (aS bS cS : Bool) (beh : StopBeh) : List Event :=
  match rollbackTryBody aS bS cS beh with
  | (evs, false) => evs
  | (evs, true) => evs ++ [.rollbackCriticalLog]

/-- The rollback call as seen across the function-call boundary: some evs
when the function returns normally with trace evs, none if an exception
were to escape.  The source catch-all makes every input return normally. -/
def rollbackCall (aS bS cS : Bool) (beh : StopBeh) : Option (List Event) :=
  match rollbackTryBody aS bS cS beh with
  | (evs, false) => some evs
  | (evs, true) => some (evs ++ [.rollbackCriticalLog])

/-- Result of a start call: the returned bool, the final value of the
shared running flag, and the event trace. -/
structure StartResult where
  result : Bool
  running : Bool
  events : List Event
  deriving DecidableEq, Repr

/-- ServerLifecycleManager::start: if already running, warn and return
true.  Otherwise start acceptor, broadcaster, collector in order,
recording each success; a false return aborts (acceptor failure needs no
rollback; later failures roll back the started subset); a thrown
exception is caught and triggers rollback with the flags as recorded.
Only after all three succeed is the running flag stored true. -/
def start (running : Bool) (beh : StartBeh) : StartResult :=
  if running then
    ⟨true, running, [.alreadyRunningWarn]⟩
  else
    match beh.acceptor with
    | .fail => ⟨false, false, [.startCall .acceptor]⟩
    | .exn =>
        ⟨false, false,
          [.startCall .acceptor] ++ rollbackStartedComponents false false false beh.rollback⟩
    | .ok =>
      match beh.broadcaster with
      | .fail =>
          ⟨false, false,
            [.startCall .acceptor, .startCall .broadcaster]
              ++ rollbackStartedComponents true false false beh.rollback⟩
      | .exn =>
          ⟨false, false,
            [.startCall .acceptor, .startCall .broadcaster]
              ++ rollbackStartedComponents true false false beh.rollback⟩
      | .ok =>
        match beh.collector with
        | .fail =>
            ⟨false, false,
              [.startCall .acceptor, .startCall .broadcaster, .startCall .collector]
                ++ rollbackStartedComponents true true false beh.rollback⟩
        | .exn =>
            ⟨false, false,
              [.startCall .acceptor, .startCall .broadcaster, .startCall .collector]
                ++ rollbackStartedComponents true true false beh.rollback⟩
        | .ok =>
            ⟨true, true,
              [.startCall .acceptor, .startCall .broadcaster, .startCall .collector,
               .storeRunning true]⟩

/-- Result of a stop call: final running flag, final shutdown-requested
flag, and the event trace. -/
structure StopResult where
  running : Bool
  shutdownRequested : Bool
  events : List Event
  deriving DecidableEq, Repr

/-- ServerLifecycleManager::stop: no-op when not running; otherwise store
shutdown-requested true and running false, then stop acceptor, stop
broadcaster, close all sessions, stop collector, in that order. -/
def stop (running shutdownRequested : Bool) : StopResult :=
  if !running then
    ⟨running, shutdownRequested, []⟩
  else
    ⟨false, true,
      [.storeShutdownRequested true, .storeRunning false,
       .stopCall .acceptor, .stopCall .broadcaster, .closeAllSessions,
       .stopCall .collector]⟩

/-- Result of an initialization call. -/
structure InitResult where
  result : Bool
  events : List Event
  deriving DecidableEq, Repr

/-- ServerLifecycleManager::initialize (the init method of the source):
initialize acceptor, broadcaster, collector in order, returning false on
the first failure (a thrown exception is caught by the surrounding
try/catch and also yields false); only when all three succeed are the
four event-handler callbacks wired, after which it returns true. -/
def init (beh : InitBeh) : InitResult :=
  match beh.acceptor with
  | .fail => ⟨false, [.initCall .acceptor]⟩
  | .exn => ⟨false, [.initCall .acceptor]⟩
  | .ok =>
    match beh.broadcaster with
    | .fail => ⟨false, [.initCall .acceptor, .initCall .broadcaster]⟩
    | .exn => ⟨false, [.initCall .acceptor, .initCall .broadcaster]⟩
    | .ok =>
      match beh.collector with
      | .fail =>
          ⟨false, [.initCall .acceptor, .initCall .broadcaster, .initCall .collector]⟩
      | .exn =>
          ⟨false, [.initCall .acceptor, .initCall .broadcaster, .initCall .collector]⟩
      | .ok =>
          ⟨true,
            [.initCall .acceptor, .initCall .broadcaster, .initCall .collector,
             .setCallback .onAccept, .setCallback .onError, .setCallback .onSession,
             .setCallback .onBroadcast]⟩

end ServerLifecycleManager

/-- Exit code of main (src/backend/src/main.cpp): 1 when the master
controller's initialization fails, 1 when its start fails, otherwise the
blocking run call completes and main returns 0. -/
def mainExitCode (initOk startOk : Bool) : Nat :=
  if !initOk then 1
  else if !startOk then 1
  else 0

/-- Components whose start call succeeded during one start invocation,
in start order, for a given behaviour (the prefix of successful starts
before the first failure). -/
def startedComponents (beh : StartBeh) : List Component :=
  match beh.acceptor with
  | .ok =>
    Component.acceptor ::
      (match beh.broadcaster with
       | .ok =>
         Component.broadcaster ::
           (match beh.collector with
            | .ok => [Component.collector]
            | _ => [])
       | _ => [])
  | _ => []

/-- Component start calls appearing in a trace, in order. -/
def startCallsOf (evs : List Event) : List Component :=
  evs.filterMap fun e =>
    match e with
    | .startCall c => some c
    | _ => none

/-- Component stop calls appearing in a trace, in order. -/
def stopCallsOf (evs : List Event) : List Component :=
  evs.filterMap fun e =>
    match e with
    | .stopCall c => some c
    | _ => none

/-- Component init calls appearing in a trace, in order. -/
def initCallsOf (evs : List Event) : List Component :=
  evs.filterMap fun e =>
    match e with
    | .initCall c => some c
    | _ => none

/-- Callback registrations appearing in a trace, in order. -/
def callbacksOf (evs : List Event) : List CallbackKind :=
  evs.filterMap fun e =>
    match e with
    | .setCallback k => some k
    | _ => none

/-- Init calls expected from one initialization attempt: every component
up to and including the first one whose initialization does not
succeed. -/
def initExpectedCalls (beh : InitBeh) : List Component :=
  match beh.acceptor with
  | .ok =>
    match beh.broadcaster with
    | .ok =>
        [Component.acceptor, Component.broadcaster, Component.collector]
    | _ => [Component.acceptor, Component.broadcaster]
  | _ => [Component.acceptor]

end Siren

namespace Siren

set_option maxRecDepth 100000

/-- C1: whenever some component start step fails (returns false or
throws) during a start call from the not-running state, and the rollback
stop calls themselves return normally, the components stopped during that
call are exactly those whose start had already succeeded, in reverse
start order, and start returns false with the running flag ending
false. -/
theorem start_rollback_exact_subset (beh : StartBeh)
    (hfail : ¬(beh.acceptor = .ok ∧ beh.broadcaster = .ok ∧ beh.collector = .ok))
    (hstops : beh.rollback = ⟨.ok, .ok, .ok⟩) :
    (ServerLifecycleManager.start false beh).result = false ∧
    (ServerLifecycleManager.start false beh).running = false ∧
    stopCallsOf (ServerLifecycleManager.start false beh).events
      = (startedComponents beh).reverse := by
  revert beh; decide

/-- Witness for C1: collector start fails after acceptor and broadcaster
succeeded; exactly broadcaster then acceptor are stopped. -/
theorem start_rollback_exact_subset_witness :
    (ServerLifecycleManager.start false ⟨.ok, .ok, .fail, ⟨.ok, .ok, .ok⟩⟩).result = false ∧
    (ServerLifecycleManager.start false ⟨.ok, .ok, .fail, ⟨.ok, .ok, .ok⟩⟩).running = false ∧
    stopCallsOf (ServerLifecycleManager.start false ⟨.ok, .ok, .fail, ⟨.ok, .ok, .ok⟩⟩).events
      = (startedComponents ⟨.ok, .ok, .fail, ⟨.ok, .ok, .ok⟩⟩).reverse :=
  start_rollback_exact_subset ⟨.ok, .ok, .fail, ⟨.ok, .ok, .ok⟩⟩ (by decide) (by decide)

/-- C2: starting from the not-running state, the running flag ends true
exactly when all three component starts succeed, and on every path the
returned bool agrees with the final running flag (so every failing path
leaves running false). -/
theorem start_running_iff_all_ok :
    ∀ beh : StartBeh,
      ((ServerLifecycleManager.start false beh).running = true ↔
        (beh.acceptor = .ok ∧ beh.broadcaster = .ok ∧ beh.collector = .ok)) ∧
      (ServerLifecycleManager.start false beh).result
        = (ServerLifecycleManager.start false beh).running := by
  decide

/-- C3: stop from the running state stores shutdown-requested true and
running false, then stops acceptor, stops broadcaster, closes all
sessions, stops collector, in exactly that order; stop from the
not-running state performs no operation and changes no flag. -/
theorem stop_order_and_noop :
    ∀ s : Bool,
      ServerLifecycleManager.stop true s =
        ⟨false, true,
          [.storeShutdownRequested true, .storeRunning false,
           .stopCall .acceptor, .stopCall .broadcaster, .closeAllSessions,
           .stopCall .collector]⟩ ∧
      ServerLifecycleManager.stop false s = ⟨false, s, []⟩ := by
  decide

/-- C4: rollbackStartedComponents never lets an exception escape: for
every combination of started flags and stop behaviours the call returns
normally (the catch-all handler turns a thrown stop into a critical log
line), and on every failing start path — in particular those whose
rollback could not fully succeed — the running flag is still false. -/
theorem rollback_nonthrowing :
    ∀ (aS bS cS : Bool) (beh : StopBeh),
      (ServerLifecycleManager.rollbackTryBody aS bS cS beh).2 = true →
      ServerLifecycleManager.rollbackCall aS bS cS beh
        = some (ServerLifecycleManager.rollbackStartedComponents aS bS cS beh) ∧
      ServerLifecycleManager.rollbackStartedComponents aS bS cS beh
        = (ServerLifecycleManager.rollbackTryBody aS bS cS beh).1
            ++ [.rollbackCriticalLog] ∧
      (∀ sbeh : StartBeh,
        (ServerLifecycleManager.start false sbeh).result = false →
        (ServerLifecycleManager.start false sbeh).running = false) := by
  decide

/-- Witness for C4: acceptor and broadcaster started, broadcaster stop
throws during rollback; the call still returns normally with the critical
log appended. -/
theorem rollback_nonthrowing_witness :
    ServerLifecycleManager.rollbackCall true true false ⟨.ok, .exn, .ok⟩
      = some (ServerLifecycleManager.rollbackStartedComponents true true false
          ⟨.ok, .exn, .ok⟩) ∧
    ServerLifecycleManager.rollbackStartedComponents true true false ⟨.ok, .exn, .ok⟩
      = (ServerLifecycleManager.rollbackTryBody true true false ⟨.ok, .exn, .ok⟩).1
          ++ [.rollbackCriticalLog] ∧
    (∀ sbeh : StartBeh,
      (ServerLifecycleManager.start false sbeh).result = false →
      (ServerLifecycleManager.start false sbeh).running = false) :=
  rollback_nonthrowing true true false ⟨.ok, .exn, .ok⟩ (by decide)

/-- C5: start while already running returns true immediately, calls no
component start, and leaves the running flag unchanged (true). -/
theorem start_already_running_idempotent :
    ∀ beh : StartBeh,
      ServerLifecycleManager.start true beh = ⟨true, true, [.alreadyRunningWarn]⟩ ∧
      startCallsOf (ServerLifecycleManager.start true beh).events = [] := by
  decide

/-- C6: from any state of the running and shutdown-requested flags,
calling stop twice leaves exactly the flags of a single call, and the
second call emits no event (no component operation). -/
theorem stop_idempotent :
    ∀ r s : Bool,
      (ServerLifecycleManager.stop (ServerLifecycleManager.stop r s).running
          (ServerLifecycleManager.stop r s).shutdownRequested).running
        = (ServerLifecycleManager.stop r s).running ∧
      (ServerLifecycleManager.stop (ServerLifecycleManager.stop r s).running
          (ServerLifecycleManager.stop r s).shutdownRequested).shutdownRequested
        = (ServerLifecycleManager.stop r s).shutdownRequested ∧
      (ServerLifecycleManager.stop (ServerLifecycleManager.stop r s).running
          (ServerLifecycleManager.stop r s).shutdownRequested).events = [] := by
  decide

/-- C7: initialization proceeds acceptor, broadcaster, collector in fixed
order; it succeeds exactly when all three succeed, the components whose
init is invoked are exactly those up to and including the first failing
one, and no rollback (no component stop) is ever invoked. -/
theorem init_first_failure_aborts :
    ∀ beh : InitBeh,
      (ServerLifecycleManager.init beh).result
        = (beh.acceptor == .ok && beh.broadcaster == .ok && beh.collector == .ok) ∧
      initCallsOf (ServerLifecycleManager.init beh).events = initExpectedCalls beh ∧
      stopCallsOf (ServerLifecycleManager.init beh).events = [] := by
  decide

/-- C8: main exits with code 0 when controller initialization and start
both succeed (clean shutdown after the blocking run returns), and with
code 1 when either fails. -/
theorem main_exit_code_spec :
    mainExitCode true true = 0 ∧
    (∀ i s : Bool, ¬(i = true ∧ s = true) → mainExitCode i s = 1) := by
  decide

/-- Witness for C8: a failed controller initialization yields exit code
1. -/
theorem main_exit_code_spec_witness : mainExitCode false true = 1 :=
  main_exit_code_spec.2 false true (by decide)

/-- C9 counterexample: the claim that some start call order makes the
rollback path log a rolled-back component that was never started is
false — in no start call (from either flag state, under any component
behaviour) does a rolled-back log name a component outside the
successfully started subset of that call. -/
theorem rolledBack_log_never_for_unstarted :
    ¬ ∃ (r : Bool) (beh : StartBeh) (c : Component),
        Event.rolledBackLog c ∈ (ServerLifecycleManager.start r beh).events ∧
        c ∉ startedComponents beh := by
  decide

/-- C9 amended: in every start call, each rolled-back log line names a
component whose start-success flag was actually true in that call. -/
theorem rolledBack_log_only_started :
    ∀ (r : Bool) (beh : StartBeh) (c : Component),
      Event.rolledBackLog c ∈ (ServerLifecycleManager.start r beh).events →
      c ∈ startedComponents beh := by
  decide

/-- Witness for the amended C9: the collector-start failure path logs a
broadcaster rollback, and the broadcaster was indeed started. -/
theorem rolledBack_log_only_started_witness :
    Component.broadcaster ∈ startedComponents ⟨.ok, .ok, .fail, ⟨.ok, .ok, .ok⟩⟩ :=
  rolledBack_log_only_started false ⟨.ok, .ok, .fail, ⟨.ok, .ok, .ok⟩⟩
    Component.broadcaster (by decide)

/-- C10: the four event-handler callbacks are registered exactly on the
fully successful initialization path (and there only after all three init
calls), and on every failing initialization no callback is wired. -/
theorem init_callbacks_only_after_all_ok :
    ∀ beh : InitBeh,
      callbacksOf (ServerLifecycleManager.init beh).events
        = (if (ServerLifecycleManager.init beh).result then
             [CallbackKind.onAccept, .onError, .onSession, .onBroadcast]
           else []) ∧
      (ServerLifecycleManager.init ⟨.ok, .ok, .ok⟩).events
        = [.initCall .acceptor, .initCall .broadcaster, .initCall .collector,
           .setCallback .onAccept, .setCallback .onError, .setCallback .onSession,
           .setCallback .onBroadcast] := by
  decide

end Siren
